import Mathlib

/-!
Verification of the SolverX pipeline (agent.py / backend.py) against its
natural-language specification.

The embedding models Python's dynamically typed values as `PyVal`, Python
exceptions as `Except PyErr`, and each remote model invocation as an oracle
reply carried in an `Oracles` record.  Every stage additionally records the
requests it issues (an `AgentCall` trace), so that statements such as
"the insights model is never invoked" are expressible.

Simplifications, recorded here once:
* JSON/Python floats are carried as their source lexeme (`PyVal.pyfloat`);
  no claim computes with a float value.
* `repr`/`str` of nested containers uses unescaped single-quoted strings;
  only used when building prompt text, which no claim inspects deeply.
* Python `str.strip` is modelled over the ASCII whitespace characters.
-/

/-- Python/JSON values as produced by `json.loads` and used by the agent code.
Floats are kept as their lexeme (never computed with). -/
inductive PyVal where
  | none
  | bool (b : Bool)
  | int (n : Int)
  | pyfloat (lexeme : String)
  | str (s : String)
  | list (xs : List PyVal)
  | dict (kvs : List (String × PyVal))

/-- Python exceptions relevant to the modelled code paths. -/
inductive PyErr where
  | attributeError (msg : String)
  | typeError (msg : String)
  | jsonDecodeError (msg : String)
  | fileNotFoundError
  | oserror (msg : String)
  | modelError (msg : String)
  | validationError (msg : String)

/-- Truthiness of a Python value (`if not profile:`).  A float is treated as
truthy; no modelled path tests the truthiness of a float. -/
def pyTruthy : PyVal → Bool
  | PyVal.none => false
  | PyVal.bool b => b
  | PyVal.int n => !(n == 0)
  | PyVal.pyfloat _ => true
  | PyVal.str s => !(s == "")
  | PyVal.list xs => !xs.isEmpty
  | PyVal.dict kvs => !kvs.isEmpty

/-- First-match association lookup (Python dicts are modelled with unique
keys, see `upsertKey`). -/
def lookupKey : List (String × PyVal) → String → Option PyVal
  | [], _ => Option.none
  | (k, v) :: rest, key => if k = key then Option.some v else lookupKey rest key

/-- Insert with replacement, preserving first-insertion order: the model of
`dict` construction from a pair list (later duplicate keys win). -/
def upsertKey : List (String × PyVal) → String → PyVal → List (String × PyVal)
  | [], key, v => [(key, v)]
  | (k0, v0) :: rest, key, v =>
      if k0 = key then (k0, v) :: rest else (k0, v0) :: upsertKey rest key v

/-- Python `d.get(key, default)`: succeeds on dicts, raises `AttributeError`
on every other value. -/
def dictGet (v : PyVal) (key : String) (dflt : PyVal) : Except PyErr PyVal :=
  match v with
  | PyVal.dict kvs => Except.ok ((lookupKey kvs key).getD dflt)
  | _ => Except.error (PyErr.attributeError "get")

/-- Python `v[:3]`: defined on lists and strings, `TypeError` otherwise. -/
def pySlice3 (v : PyVal) : Except PyErr PyVal :=
  match v with
  | PyVal.list xs => Except.ok (PyVal.list (xs.take 3))
  | PyVal.str s => Except.ok (PyVal.str (String.mk (s.data.take 3)))
  | _ => Except.error (PyErr.typeError "slice")

/-- Does an `Except` hold a value (the call returned without raising)? -/
def exceptOk {ε α : Type} : Except ε α → Bool
  | Except.ok _ => true
  | Except.error _ => false

/-- ASCII whitespace for Python `str.strip()`. -/
def isPySpace (c : Char) : Bool :=
  c = ' ' || c = '\t' || c = '\n' || c = '\r' || c = Char.ofNat 11 || c = Char.ofNat 12

/-- Python `s.strip()` over ASCII whitespace. -/
def pyStrip (s : String) : String :=
  String.mk (((s.data.dropWhile isPySpace).reverse.dropWhile isPySpace).reverse)

/-- The backtick character (used by the markdown fences in the source). -/
def btick : Char := Char.ofNat 96

/-- A triple-backtick fence, as a character list. -/
def fenceChars : List Char := [btick, btick, btick]

/-- Does the text begin with a triple-backtick fence (`s.startswith`)? -/
def isFenceStart : List Char → Bool
  | c1 :: c2 :: c3 :: _ => c1 = btick && c2 = btick && c3 = btick
  | _ => false

/-- Does the text contain a triple-backtick fence anywhere? -/
def containsFence : List Char → Bool
  | c1 :: c2 :: c3 :: rest =>
      (c1 = btick && c2 = btick && c3 = btick) || containsFence (c2 :: c3 :: rest)
  | _ => false

/-- Python `s.split` on the three-backtick separator: non-overlapping,
left-to-right. -/
def splitFence : List Char → List (List Char)
  | c1 :: c2 :: c3 :: rest =>
      if c1 = btick && c2 = btick && c3 = btick then
        [] :: splitFence rest
      else
        match splitFence (c2 :: c3 :: rest) with
        | [] => [[c1]]
        | p :: ps => (c1 :: p) :: ps
  | cs => [cs]

/-- Does the text begin with the four characters of the label `json`? -/
def startsWithJson : List Char → Bool
  | 'j' :: 's' :: 'o' :: 'n' :: _ => true
  | _ => false

/-- The fence-stripping block of `_generate_insights` (agent.py lines
248-253) on character lists: strip surrounding whitespace, and when the text
starts with a fence take `split` part 1, dropping a leading `json` label.
When the text starts with a fence, `splitFence` provably yields at least two
parts, so the `getD` default is unreachable (mirroring Python's `[1]`). -/
def stripFencesL (cs : List Char) : List Char :=
  if isFenceStart cs then
    let part1 := (splitFence cs).getD 1 []
    if startsWithJson part1 then part1.drop 4 else part1
  else cs

/-- The exact text `_generate_insights` submits to the JSON parser, as a
function of the raw model reply. -/
def stripFences (s : String) : String :=
  String.mk (stripFencesL (pyStrip s).data)

/-- Escaping of a character for `json.dumps` (common escapes; exotic control
characters are left as-is, never exercised by the claims). -/
def jsonEscapeChar (c : Char) : List Char :=
  if c = '"' then ['\\', '"']
  else if c = '\\' then ['\\', '\\']
  else if c = '\n' then ['\\', 'n']
  else if c = '\t' then ['\\', 't']
  else if c = '\r' then ['\\', 'r']
  else [c]

/-- String-body escaping for `json.dumps`. -/
def jsonEscape (s : String) : String :=
  String.mk (s.data.map jsonEscapeChar).flatten

mutual

/-- Serialisation as Python `json.dumps` with default separators. -/
def jsonDumps : PyVal → String
  | PyVal.none => "null"
  | PyVal.bool b => if b then "true" else "false"
  | PyVal.int n => toString n
  | PyVal.pyfloat lexeme => lexeme
  | PyVal.str s => "\"" ++ jsonEscape s ++ "\""
  | PyVal.list xs => "[" ++ jsonDumpsItems xs ++ "]"
  | PyVal.dict kvs => "\x7b" ++ jsonDumpsPairs kvs ++ "\x7d"

/-- Comma-and-space separated array items for `jsonDumps`. -/
def jsonDumpsItems : List PyVal → String
  | [] => ""
  | [x] => jsonDumps x
  | x :: y :: rest => jsonDumps x ++ ", " ++ jsonDumpsItems (y :: rest)

/-- Comma-and-space separated object entries for `jsonDumps`. -/
def jsonDumpsPairs : List (String × PyVal) → String
  | [] => ""
  | [(k, v)] => "\"" ++ jsonEscape k ++ "\": " ++ jsonDumps v
  | (k, v) :: p :: rest =>
      "\"" ++ jsonEscape k ++ "\": " ++ jsonDumps v ++ ", " ++ jsonDumpsPairs (p :: rest)

end

mutual

/-- Python `repr` of a value (single-quoted strings, no escaping: the model
only uses this to build prompt text). -/
def pyRepr : PyVal → String
  | PyVal.none => "None"
  | PyVal.bool b => if b then "True" else "False"
  | PyVal.int n => toString n
  | PyVal.pyfloat lexeme => lexeme
  | PyVal.str s => "\x27" ++ s ++ "\x27"
  | PyVal.list xs => "[" ++ pyReprItems xs ++ "]"
  | PyVal.dict kvs => "\x7b" ++ pyReprPairs kvs ++ "\x7d"

/-- Comma-separated list items for `pyRepr`. -/
def pyReprItems : List PyVal → String
  | [] => ""
  | [x] => pyRepr x
  | x :: y :: rest => pyRepr x ++ ", " ++ pyReprItems (y :: rest)

/-- Comma-separated dict entries for `pyRepr`. -/
def pyReprPairs : List (String × PyVal) → String
  | [] => ""
  | [(k, v)] => "\x27" ++ k ++ "\x27: " ++ pyRepr v
  | (k, v) :: p :: rest =>
      "\x27" ++ k ++ "\x27: " ++ pyRepr v ++ ", " ++ pyReprPairs (p :: rest)

end

/-- Python `str()` of a value (f-string interpolation). -/
def pyStr (v : PyVal) : String :=
  match v with
  | PyVal.str s => s
  | v => pyRepr v

/-- Python `str()` of an `Optional[str]` (f-string interpolation of a value
that may be `None`). -/
def pyStrOpt : Option String → String
  | Option.some s => s
  | Option.none => "None"

/-- Truthiness of an `Optional[str]` (`None` and the empty string are
falsy). -/
def optTruthy : Option String → Bool
  | Option.some s => !(s == "")
  | Option.none => false

/-- JSON structural whitespace (as accepted by Python's `json.loads`). -/
def isJsonWs (c : Char) : Bool :=
  c = ' ' || c = '\t' || c = '\n' || c = '\r'

/-- Consume an expected literal word, returning the remaining input. -/
def dropLit : List Char → List Char → Option (List Char)
  | [], cs => Option.some cs
  | _ :: _, [] => Option.none
  | l :: ls, c :: cs => if c = l then dropLit ls cs else Option.none

/-- Numeric value of a hexadecimal digit. -/
def hexVal : Char → Option Nat
  | c =>
    if '0' ≤ c ∧ c ≤ '9' then Option.some (c.toNat - 48)
    else if 'a' ≤ c ∧ c ≤ 'f' then Option.some (c.toNat - 87)
    else if 'A' ≤ c ∧ c ≤ 'F' then Option.some (c.toNat - 55)
    else Option.none

/-- Body of a JSON string literal (after the opening quote): returns the
decoded characters and the input after the closing quote. -/
def parseJsonString : List Char → Except PyErr (List Char × List Char)
  | [] => Except.error (PyErr.jsonDecodeError "Unterminated string")
  | '"' :: rest => Except.ok ([], rest)
  | '\\' :: 'u' :: h1 :: h2 :: h3 :: h4 :: rest =>
      match hexVal h1, hexVal h2, hexVal h3, hexVal h4 with
      | Option.some a, Option.some b, Option.some c, Option.some d =>
          (fun r => (Char.ofNat (((a * 16 + b) * 16 + c) * 16 + d) :: r.1, r.2)) <$>
            parseJsonString rest
      | _, _, _, _ => Except.error (PyErr.jsonDecodeError "Invalid \\uXXXX escape")
  | '\\' :: e :: rest =>
      let dec : Option Char :=
        if e = '"' then Option.some '"'
        else if e = '\\' then Option.some '\\'
        else if e = '/' then Option.some '/'
        else if e = 'b' then Option.some (Char.ofNat 8)
        else if e = 'f' then Option.some (Char.ofNat 12)
        else if e = 'n' then Option.some '\n'
        else if e = 'r' then Option.some '\r'
        else if e = 't' then Option.some '\t'
        else Option.none
      match dec with
      | Option.some c => (fun r => (c :: r.1, r.2)) <$> parseJsonString rest
      | Option.none => Except.error (PyErr.jsonDecodeError "Invalid \\escape")
  | c :: rest => (fun r => (c :: r.1, r.2)) <$> parseJsonString rest

/-- Longest prefix of decimal digits. -/
def takeDigits : List Char → List Char × List Char
  | [] => ([], [])
  | c :: rest =>
      if c.isDigit then
        let (ds, r) := takeDigits rest
        (c :: ds, r)
      else ([], c :: rest)

/-- Natural number denoted by a digit string. -/
def natOfDigits (ds : List Char) : Nat :=
  ds.foldl (fun a c => a * 10 + (c.toNat - 48)) 0

/-- A JSON number token, following Python's number regex
`(-?(0|[1-9]d*))(.d+)?([eE][+-]?d+)?`: an integer when it has neither
fraction nor exponent, otherwise a float carried as its lexeme. -/
def parseNumber (cs : List Char) : Except PyErr (PyVal × List Char) :=
  let (neg, cs1) :=
    match cs with
    | c :: rest => if c = '-' then (true, rest) else (false, cs)
    | [] => (false, cs)
  match cs1 with
  | [] => Except.error (PyErr.jsonDecodeError "Expecting value")
  | d :: rest =>
    if !d.isDigit then Except.error (PyErr.jsonDecodeError "Expecting value")
    else
      let (intDs, rest2) :=
        if d = '0' then ([d], rest)
        else
          let (ds, r) := takeDigits rest
          (d :: ds, r)
      let (fracDs, rest3) :=
        match rest2 with
        | '.' :: f :: fr =>
            if f.isDigit then
              let (ds, r) := takeDigits (f :: fr)
              ('.' :: ds, r)
            else ([], rest2)
        | _ => ([], rest2)
      let (expDs, rest4) :=
        match rest3 with
        | e :: sgn :: er =>
            if (e = 'e' ∨ e = 'E') then
              if sgn.isDigit then
                let (ds, r) := takeDigits (sgn :: er)
                (e :: ds, r)
              else if (sgn = '+' ∨ sgn = '-') then
                match er with
                | f :: _ =>
                    if f.isDigit then
                      let (ds, r) := takeDigits er
                      (e :: sgn :: ds, r)
                    else ([], rest3)
                | [] => ([], rest3)
              else ([], rest3)
            else ([], rest3)
        | _ => ([], rest3)
      if fracDs.isEmpty ∧ expDs.isEmpty then
        let n : Int := Int.ofNat (natOfDigits intDs)
        Except.ok (PyVal.int (if neg then -n else n), rest2)
      else
        let lex := (if neg then ['-'] else []) ++ intDs ++ fracDs ++ expDs
        Except.ok (PyVal.pyfloat (String.mk lex), rest4)

mutual

/-- One JSON value, fuelled recursive descent mirroring `json.loads`
(including the non-standard constants NaN and Infinity Python accepts). -/
def parseJsonVal : Nat → List Char → Except PyErr (PyVal × List Char)
  | 0, _ => Except.error (PyErr.jsonDecodeError "Expecting value")
  | fuel + 1, cs =>
    match cs.dropWhile isJsonWs with
    | [] => Except.error (PyErr.jsonDecodeError "Expecting value")
    | c :: rest =>
      if c = 'n' then
        match dropLit ['u', 'l', 'l'] rest with
        | Option.some r => Except.ok (PyVal.none, r)
        | Option.none => Except.error (PyErr.jsonDecodeError "Expecting value")
      else if c = 't' then
        match dropLit ['r', 'u', 'e'] rest with
        | Option.some r => Except.ok (PyVal.bool true, r)
        | Option.none => Except.error (PyErr.jsonDecodeError "Expecting value")
      else if c = 'f' then
        match dropLit ['a', 'l', 's', 'e'] rest with
        | Option.some r => Except.ok (PyVal.bool false, r)
        | Option.none => Except.error (PyErr.jsonDecodeError "Expecting value")
      else if c = 'N' then
        match dropLit ['a', 'N'] rest with
        | Option.some r => Except.ok (PyVal.pyfloat "NaN", r)
        | Option.none => Except.error (PyErr.jsonDecodeError "Expecting value")
      else if c = 'I' then
        match dropLit ['n', 'f', 'i', 'n', 'i', 't', 'y'] rest with
        | Option.some r => Except.ok (PyVal.pyfloat "Infinity", r)
        | Option.none => Except.error (PyErr.jsonDecodeError "Expecting value")
      else if c = '"' then
        (fun r => (PyVal.str (String.mk r.1), r.2)) <$> parseJsonString rest
      else if c = '[' then
        match rest.dropWhile isJsonWs with
        | ']' :: r2 => Except.ok (PyVal.list [], r2)
        | _ =>
          match parseJsonItems fuel rest with
          | Except.ok (items, r) => Except.ok (PyVal.list items, r)
          | Except.error e => Except.error e
      else if c = Char.ofNat 123 then
        match rest.dropWhile isJsonWs with
        | c2 :: r2 =>
          if c2 = Char.ofNat 125 then Except.ok (PyVal.dict [], r2)
          else
            match parseJsonPairs fuel rest with
            | Except.ok (pairs, r) =>
                Except.ok (PyVal.dict (pairs.foldl (fun acc kv => upsertKey acc kv.1 kv.2) []), r)
            | Except.error e => Except.error e
        | [] => Except.error (PyErr.jsonDecodeError "Expecting property name")
      else if c = '-' then
        match dropLit ['I', 'n', 'f', 'i', 'n', 'i', 't', 'y'] rest with
        | Option.some r => Except.ok (PyVal.pyfloat "-Infinity", r)
        | Option.none => parseNumber (c :: rest)
      else parseNumber (c :: rest)

/-- Comma-separated JSON array items up to the closing bracket. -/
def parseJsonItems : Nat → List Char → Except PyErr (List PyVal × List Char)
  | 0, _ => Except.error (PyErr.jsonDecodeError "Expecting value")
  | fuel + 1, cs =>
    match parseJsonVal fuel cs with
    | Except.error e => Except.error e
    | Except.ok (v, r) =>
      match r.dropWhile isJsonWs with
      | ',' :: r2 =>
          match parseJsonItems fuel r2 with
          | Except.ok (vs, r3) => Except.ok (v :: vs, r3)
          | Except.error e => Except.error e
      | ']' :: r2 => Except.ok ([v], r2)
      | _ => Except.error (PyErr.jsonDecodeError "Expecting comma delimiter")

/-- Comma-separated JSON object entries up to the closing brace. -/
def parseJsonPairs : Nat → List Char → Except PyErr (List (String × PyVal) × List Char)
  | 0, _ => Except.error (PyErr.jsonDecodeError "Expecting value")
  | fuel + 1, cs =>
    match cs.dropWhile isJsonWs with
    | '"' :: rest =>
      (match parseJsonString rest with
      | Except.error e => Except.error e
      | Except.ok (kcs, r1) =>
        match r1.dropWhile isJsonWs with
        | ':' :: r2 =>
          (match parseJsonVal fuel r2 with
          | Except.error e => Except.error e
          | Except.ok (v, r3) =>
            match r3.dropWhile isJsonWs with
            | ',' :: r4 =>
                (match parseJsonPairs fuel r4 with
                | Except.ok (ps, r5) => Except.ok ((String.mk kcs, v) :: ps, r5)
                | Except.error e => Except.error e)
            | c3 :: r4 =>
                if c3 = Char.ofNat 125 then Except.ok ([(String.mk kcs, v)], r4)
                else Except.error (PyErr.jsonDecodeError "Expecting comma delimiter")
            | [] => Except.error (PyErr.jsonDecodeError "Expecting comma delimiter"))
        | _ => Except.error (PyErr.jsonDecodeError "Expecting colon delimiter"))
    | _ => Except.error (PyErr.jsonDecodeError "Expecting property name")

end

/-- Python `json.loads`: one JSON document with nothing but whitespace
around it.  The fuel bounds the recursion depth and is generously larger
than any chain a document of this length can produce. -/
def jsonLoads (s : String) : Except PyErr PyVal :=
  match parseJsonVal (2 * s.data.length + 8) s.data with
  | Except.error e => Except.error e
  | Except.ok (v, rest) =>
    if (rest.dropWhile isJsonWs).isEmpty then Except.ok v
    else Except.error (PyErr.jsonDecodeError "Extra data")

/-- System prompt of the solver agent (agent.py lines 37-47). -/
def SOLVER_SYSTEM_PROMPT : String :=
  "You are an expert JEE Advanced and JEE Mains problem solver. \nYou have deep knowledge of Physics, Chemistry, and Mathematics at the JEE level.\n\nWhen given a problem:\n1. Identify the topic and relevant concepts\n2. Write down the given information\n3. Apply the appropriate formulas and methods\n4. Solve step by step with clear reasoning\n5. Provide the final answer\n\nBe thorough and accurate. Show all your work."

/-- System prompt of the formatter agent (agent.py lines 49-78). -/
def FORMATTER_SYSTEM_PROMPT : String :=
  "You are a Markdown/MathJax formatter for a web interface.\n\nCRITICAL RULES - YOU MUST FOLLOW THESE EXACTLY:\n1. DO NOT wrap your output in code blocks (no ``` or ```markdown)\n2. DO NOT include any explanation or meta-text\n3. Start DIRECTLY with the formatted content (e.g., start with ## heading)\n4. Output ONLY the formatted solution - nothing before, nothing after\n\nFORMATTING RULES:\n1. Use ## for main sections, ### for subsections\n2. Use MathJax for ALL math expressions:\n   - Inline: $expression$ (e.g., $x^2 + y^2 = r^2$)\n   - Display/block: $$expression$$ (e.g., $$\\frac\x7ba\x7d\x7bb\x7d$$)\n3. Use numbered lists (1. 2. 3.) for solution steps\n4. Use bullet points for listing concepts or given data\n5. Use **bold** for important terms and final answers\n6. Use proper spacing between sections\n\nMATHJAX EXAMPLES:\n- Fractions: $\\frac\x7ba\x7d\x7bb\x7d$\n- Powers/exponents: $x^2$, $e^\x7bx\x7d$\n- Square roots: $\\sqrt\x7bx\x7d$, $\\sqrt[3]\x7bx\x7d$\n- Greek letters: $\\alpha$, $\\beta$, $\\theta$, $\\omega$\n- Subscripts: $v_0$, $x_1$\n- Integrals: $\\int_a^b f(x)dx$\n- Summation: $\\sum_\x7bi=1\x7d^\x7bn\x7d x_i$\n- Vectors: $\\vec\x7bv\x7d$, $\\hat\x7bi\x7d$\n\nREMEMBER: Your output will be rendered directly as HTML. \nDO NOT use code fences. Start with ## immediately."

/-- System prompt of the insights agent (agent.py lines 80-105). -/
def INSIGHTS_SYSTEM_PROMPT : String :=
  "You are a personalized JEE learning coach. Your job is to analyze:\n1. The problem that was asked\n2. The complete solution\n3. The student\x27s performance profile\n\nBased on this, provide EXACTLY 4 flashcard-style insights in JSON format.\n\nEach insight should be:\n- Concise (max 2-3 sentences)\n- Actionable and specific to this problem\n- Personalized based on the student\x27s weak/strong areas\n\nReturn a JSON array with exactly 4 objects, each having:\n- \"title\": A short catchy title (max 5 words)\n- \"content\": The insight message (2-3 sentences)\n- \"type\": One of \"concept\", \"mistake\", \"tip\", \"practice\"\n\nExample format:\n[\n  \x7b\"title\": \"Key Concept to Remember\", \"content\": \"...\", \"type\": \"concept\"\x7d,\n  \x7b\"title\": \"Common Mistake Alert\", \"content\": \"...\", \"type\": \"mistake\"\x7d,\n  \x7b\"title\": \"Pro Tip\", \"content\": \"...\", \"type\": \"tip\"\x7d,\n  \x7b\"title\": \"Practice This Next\", \"content\": \"...\", \"type\": \"practice\"\x7d\n]\n\nReturn ONLY the JSON array, no other text."

/-- One entry of a LangChain `HumanMessage` content list. -/
inductive ContentPart where
  | imageUrl (url : String)
  | text (t : String)
deriving DecidableEq

/-- One observable action of the pipeline: a remote-model request (with the
system prompt and the user turn it sends) or the profile-file read. -/
inductive AgentCall where
  | solverCall (system : String) (user : List ContentPart)
  | formatterCall (system : String) (user : String)
  | profileLoad
  | insightsCall (system : String) (user : String)
deriving DecidableEq

/-- Which pipeline stage an `AgentCall` belongs to. -/
inductive AgentStage where
  | solver
  | formatter
  | profileRead
  | insights
deriving DecidableEq

/-- Stage of a recorded call. -/
def stageOf : AgentCall → AgentStage
  | AgentCall.solverCall _ _ => AgentStage.solver
  | AgentCall.formatterCall _ _ => AgentStage.formatter
  | AgentCall.profileLoad => AgentStage.profileRead
  | AgentCall.insightsCall _ _ => AgentStage.insights

/-- Outcome of opening and reading `profile.json`. -/
inductive FileOutcome where
  | found (contents : String)
  | notFound
  | readError (e : PyErr)

/-- The environment of one request: what each remote model would reply
(or the exception its invocation would raise) and the state of the profile
file. -/
structure Oracles where
  solverReply : Except PyErr String
  formatterReply : Except PyErr String
  profileFile : FileOutcome
  insightsReply : Except PyErr String

/-- `load_student_profile` (agent.py lines 108-114): parse `profile.json`,
return an empty dict when the file is absent; only `FileNotFoundError` is
caught, so parse failures and other read errors propagate. -/
def load_student_profile : FileOutcome → Except PyErr PyVal
  | FileOutcome.found contents => jsonLoads contents
  | FileOutcome.notFound => Except.ok (PyVal.dict [])
  | FileOutcome.readError e => Except.error e

/-- The three subject scores extracted from the profile. -/
structure SubjectPerformanceScores where
  physics : PyVal
  chemistry : PyVal
  mathematics : PyVal

/-- The dict literal built by `get_relevant_profile_data`. -/
structure RelevantProfile where
  name : PyVal
  weak_topics : PyVal
  strong_topics : PyVal
  cognitive_abilities : PyVal
  learning_style : PyVal
  subject_performance : SubjectPerformanceScores
  recommendations : PyVal
  recent_attempts : PyVal

/-- `get_relevant_profile_data` (agent.py lines 117-132).  Each `.get` call
raises `AttributeError` when its receiver is not a dict, and the `[:3]`
slice raises `TypeError` on non-sliceable values; neither is caught here. -/
def get_relevant_profile_data (profile : PyVal) : Except PyErr RelevantProfile := do
  let basic_info ← dictGet profile "basic_info" (PyVal.dict [])
  let name ← dictGet basic_info "name" (PyVal.str "Student")
  let analytics ← dictGet profile "performance_analytics" (PyVal.dict [])
  let weak_topics ← dictGet analytics "weak_topics_priority_list" (PyVal.list [])
  let analytics2 ← dictGet profile "performance_analytics" (PyVal.dict [])
  let strong_topics ← dictGet analytics2 "strong_topics_list" (PyVal.list [])
  let psycho ← dictGet profile "psychometric_profile" (PyVal.dict [])
  let cognitive_abilities ← dictGet psycho "cognitive_abilities" (PyVal.dict [])
  let psycho2 ← dictGet profile "psychometric_profile" (PyVal.dict [])
  let learning_style ← dictGet psycho2 "learning_style" (PyVal.dict [])
  let subj ← dictGet profile "subject_performance" (PyVal.dict [])
  let physicsD ← dictGet subj "physics" (PyVal.dict [])
  let physics ← dictGet physicsD "overall_score" (PyVal.int 0)
  let subj2 ← dictGet profile "subject_performance" (PyVal.dict [])
  let chemistryD ← dictGet subj2 "chemistry" (PyVal.dict [])
  let chemistry ← dictGet chemistryD "overall_score" (PyVal.int 0)
  let subj3 ← dictGet profile "subject_performance" (PyVal.dict [])
  let mathematicsD ← dictGet subj3 "mathematics" (PyVal.dict [])
  let mathematics ← dictGet mathematicsD "overall_score" (PyVal.int 0)
  let recommendations ← dictGet profile "recommendations" (PyVal.dict [])
  let history ← dictGet profile "question_history" (PyVal.dict [])
  let attempts ← dictGet history "recent_attempts" (PyVal.list [])
  let recent_attempts ← pySlice3 attempts
  Except.ok
    { name := name
      weak_topics := weak_topics
      strong_topics := strong_topics
      cognitive_abilities := cognitive_abilities
      learning_style := learning_style
      subject_performance :=
        { physics := physics, chemistry := chemistry, mathematics := mathematics }
      recommendations := recommendations
      recent_attempts := recent_attempts }

/-- The fixed four-item default insight set (agent.py lines 212-217 and
258-263, identical literals). -/
def defaultInsights : PyVal :=
  PyVal.list
    [PyVal.dict
       [("title", PyVal.str "Key Concept"),
        ("content", PyVal.str "Review the core concepts used in this solution."),
        ("type", PyVal.str "concept")],
     PyVal.dict
       [("title", PyVal.str "Practice More"),
        ("content", PyVal.str "Try similar problems to reinforce your understanding."),
        ("type", PyVal.str "practice")],
     PyVal.dict
       [("title", PyVal.str "Check Your Steps"),
        ("content", PyVal.str "Always verify your intermediate calculations."),
        ("type", PyVal.str "tip")],
     PyVal.dict
       [("title", PyVal.str "Common Pitfall"),
        ("content", PyVal.str "Watch out for sign errors and unit conversions."),
        ("type", PyVal.str "mistake")]]

/-- The f-string user prompt of the insights agent (agent.py lines 221-238).
The slices and the `.get` on the learning style run while the prompt is
built, outside the try block. -/
def buildInsightsPrompt (problem_text : Option String) (solution : String)
    (rp : RelevantProfile) : Except PyErr String := do
  let weak3 ← pySlice3 rp.weak_topics
  let strong3 ← pySlice3 rp.strong_topics
  let style ← dictGet rp.learning_style "dominant_style" (PyVal.str "visual")
  Except.ok
    ("Analyze this JEE problem and solution for the student:\n\nPROBLEM:\n" ++
     (if optTruthy problem_text then problem_text.getD "" else "[Problem from image]") ++
     "\n\nSOLUTION:\n" ++ solution ++
     "\n\nSTUDENT PROFILE:\n- Name: " ++ pyStr rp.name ++
     "\n- Physics Score: " ++ pyStr rp.subject_performance.physics ++
     "%\n- Chemistry Score: " ++ pyStr rp.subject_performance.chemistry ++
     "%\n- Mathematics Score: " ++ pyStr rp.subject_performance.mathematics ++
     "%\n- Weak Topics: " ++ jsonDumps weak3 ++
     "\n- Strong Topics: " ++ jsonDumps strong3 ++
     "\n- Learning Style: " ++ pyStr style ++
     "\n\nProvide 4 personalized insights as flashcards in JSON format.")

/-- Does the profile survive `get_relevant_profile_data` and the prompt
construction without raising (the part of `_generate_insights` before the
try block)? -/
def insightsReady (problem_text : Option String) (solution : String)
    (profile : PyVal) : Bool :=
  match get_relevant_profile_data profile with
  | Except.ok rp => exceptOk (buildInsightsPrompt problem_text solution rp)
  | Except.error _ => false

/-- What the try block of `_generate_insights` produces from the insights
model outcome: the parsed JSON value, or the default set on any exception
(model failure or parse failure). -/
def insightsFromReply (reply : Except PyErr String) : PyVal :=
  match (match reply with
         | Except.ok r => jsonLoads (stripFences r)
         | Except.error e => (Except.error e : Except PyErr PyVal)) with
  | Except.ok v => v
  | Except.error _ => defaultInsights

/-- `_generate_insights` (agent.py lines 207-263).  The returned list
records the insights-model request, when one is issued. -/
def _generate_insights (oc : Oracles) (problem_text : Option String)
    (solution : String) (profile : PyVal) : Except PyErr PyVal × List AgentCall :=
  if pyTruthy profile = false then (Except.ok defaultInsights, [])
  else
    match get_relevant_profile_data profile with
    | Except.error e => (Except.error e, [])
    | Except.ok relevant_profile =>
      match buildInsightsPrompt problem_text solution relevant_profile with
      | Except.error e => (Except.error e, [])
      | Except.ok prompt =>
        let attempt : Except PyErr PyVal :=
          match oc.insightsReply with
          | Except.error e => Except.error e
          | Except.ok reply => jsonLoads (stripFences reply)
        match attempt with
        | Except.ok insights =>
            (Except.ok insights, [AgentCall.insightsCall INSIGHTS_SYSTEM_PROMPT prompt])
        | Except.error _ =>
            (Except.ok defaultInsights, [AgentCall.insightsCall INSIGHTS_SYSTEM_PROMPT prompt])

/-- The default caption sent with an image when no usable problem text is
supplied (agent.py line 180). -/
def imageDefaultCaption : String :=
  "Solve this problem shown in the image. Provide a complete step-by-step solution."

/-- The human-message content list built by `_solve_with_agent` (agent.py
lines 170-186). -/
def solverUserContent (problem_text image_base64 : Option String) : List ContentPart :=
  if optTruthy image_base64 then
    [ContentPart.imageUrl ("data:image/jpeg;base64," ++ image_base64.getD ""),
     ContentPart.text
       (if optTruthy problem_text then problem_text.getD "" else imageDefaultCaption)]
  else
    [ContentPart.text ("Solve this JEE problem:\n\n" ++ pyStrOpt problem_text)]

/-- `_solve_with_agent` (agent.py lines 164-192): issues one solver-model
request and returns its reply verbatim. -/
def _solve_with_agent (oc : Oracles) (problem_text image_base64 : Option String) :
    Except PyErr String × List AgentCall :=
  (oc.solverReply,
   [AgentCall.solverCall SOLVER_SYSTEM_PROMPT (solverUserContent problem_text image_base64)])

/-- The user turn sent to the formatter model (agent.py line 200). -/
def formatterUserMessage (raw_solution : String) : String :=
  "Format this solution into proper Markdown with MathJax:\n\n" ++ raw_solution

/-- `_format_solution` (agent.py lines 195-204): issues one formatter-model
request and returns its reply verbatim. -/
def _format_solution (oc : Oracles) (raw_solution : String) :
    Except PyErr String × List AgentCall :=
  (oc.formatterReply,
   [AgentCall.formatterCall FORMATTER_SYSTEM_PROMPT (formatterUserMessage raw_solution)])

/-- `solve_problem` (agent.py lines 135-161): solver, then formatter, then
profile load, then insights; nothing is caught here, so the first raising
stage aborts the call.  The second component is the trace of actions in
order. -/
def solve_problem (oc : Oracles) (problem_text image_base64 : Option String) :
    Except PyErr PyVal × List AgentCall :=
  let s := _solve_with_agent oc problem_text image_base64
  match s.1 with
  | Except.error e => (Except.error e, s.2)
  | Except.ok raw_solution =>
    let f := _format_solution oc raw_solution
    match f.1 with
    | Except.error e => (Except.error e, s.2 ++ f.2)
    | Except.ok formatted_solution =>
      match load_student_profile oc.profileFile with
      | Except.error e => (Except.error e, s.2 ++ f.2 ++ [AgentCall.profileLoad])
      | Except.ok profile =>
        let g := _generate_insights oc problem_text raw_solution profile
        match g.1 with
        | Except.error e => (Except.error e, s.2 ++ f.2 ++ [AgentCall.profileLoad] ++ g.2)
        | Except.ok insights =>
            (Except.ok (PyVal.dict
               [("raw_solution", PyVal.str raw_solution),
                ("formatted_solution", PyVal.str formatted_solution),
                ("insights", insights)]),
             s.2 ++ f.2 ++ [AgentCall.profileLoad] ++ g.2)

/-- Keys of a dict value. -/
def pyKeys : PyVal → Option (List String)
  | PyVal.dict kvs => Option.some (kvs.map Prod.fst)
  | _ => Option.none

/-- Pydantic string-field validation for `SolutionResponse`. -/
def requireStrField (kvs : List (String × PyVal)) (key : String) : Except PyErr String :=
  match lookupKey kvs key with
  | Option.some (PyVal.str s) => Except.ok s
  | _ => Except.error (PyErr.validationError key)

/-- `SolutionResponse(**result)` plus FastAPI response-model serialisation
(backend.py lines 29-31): the two declared string fields are kept and every
extra key, such as `insights`, is silently dropped. -/
def mkSolutionResponse (result : PyVal) : Except PyErr PyVal :=
  match result with
  | PyVal.dict kvs =>
    (match requireStrField kvs "raw_solution", requireStrField kvs "formatted_solution" with
     | Except.ok raw, Except.ok fmt =>
         Except.ok (PyVal.dict
           [("raw_solution", PyVal.str raw), ("formatted_solution", PyVal.str fmt)])
     | Except.error e, _ => Except.error e
     | _, Except.error e => Except.error e)
  | _ => Except.error (PyErr.typeError "kwargs")

/-- `POST /solve/text` (backend.py lines 39-43). -/
def solve_text_problem (oc : Oracles) (problem_text : String) :
    Except PyErr PyVal × List AgentCall :=
  let r := solve_problem oc (Option.some problem_text) Option.none
  (match r.1 with
   | Except.ok result => mkSolutionResponse result
   | Except.error e => Except.error e,
   r.2)

/-- Character of the standard base64 alphabet. -/
def b64char (n : Nat) : Char :=
  "ABCDEFGHIJKLMNOPQRSTUVWXYZabcdefghijklmnopqrstuvwxyz0123456789+/".data.getD n 'A'

/-- Base64 encoding of a byte list, three bytes at a time with padding. -/
def b64encodeChunks : List Nat → List Char
  | b1 :: b2 :: b3 :: rest =>
      b64char (b1 / 4) :: b64char ((b1 % 4) * 16 + b2 / 16) ::
        b64char ((b2 % 16) * 4 + b3 / 64) :: b64char (b3 % 64) :: b64encodeChunks rest
  | [b1, b2] =>
      [b64char (b1 / 4), b64char ((b1 % 4) * 16 + b2 / 16), b64char ((b2 % 16) * 4), '=']
  | [b1] => [b64char (b1 / 4), b64char ((b1 % 4) * 16), '=', '=']
  | [] => []

/-- Python `base64.b64encode(image_bytes).decode("utf-8")`. -/
def b64encode (imageBytes : List Nat) : String :=
  String.mk (b64encodeChunks (imageBytes.map (· % 256)))

/-- `POST /solve/image` (backend.py lines 46-60): the uploaded bytes are
base64-encoded and passed with the optional caption text. -/
def solve_image_problem (oc : Oracles) (imageBytes : List Nat)
    (additional_text : Option String) : Except PyErr PyVal × List AgentCall :=
  let image_base64 := b64encode imageBytes
  let r := solve_problem oc additional_text (Option.some image_base64)
  (match r.1 with
   | Except.ok result => mkSolutionResponse result
   | Except.error e => Except.error e,
   r.2)

/-- A sample request environment: both text models succeed, the profile file
is absent, the insights model replies with an empty JSON array. -/
def ocSample : Oracles where
  solverReply := Except.ok "4"
  formatterReply := Except.ok "## 4"
  profileFile := FileOutcome.notFound
  insightsReply := Except.ok "[]"

/-- A sample environment whose solver invocation raises. -/
def ocSolverDown : Oracles where
  solverReply := Except.error (PyErr.modelError "quota")
  formatterReply := Except.ok "## 4"
  profileFile := FileOutcome.notFound
  insightsReply := Except.ok "[]"

/-- A sample environment whose insights model replies with prose that is not
JSON. -/
def ocBadJson : Oracles where
  solverReply := Except.ok "4"
  formatterReply := Except.ok "## 4"
  profileFile := FileOutcome.notFound
  insightsReply := Except.ok "Here are your insights!"

/-- A well-formed insights reply: a JSON array of exactly four objects with
the keys title, content and type. -/
def reply4 : String :=
  "[\x7b\"title\": \"T1\", \"content\": \"A1\", \"type\": \"concept\"\x7d, \x7b\"title\": \"T2\", \"content\": \"A2\", \"type\": \"mistake\"\x7d, \x7b\"title\": \"T3\", \"content\": \"A3\", \"type\": \"tip\"\x7d, \x7b\"title\": \"T4\", \"content\": \"A4\", \"type\": \"practice\"\x7d]"

/-- The four objects denoted by `reply4`. -/
def objs4 : List PyVal :=
  [PyVal.dict
     [("title", PyVal.str "T1"), ("content", PyVal.str "A1"), ("type", PyVal.str "concept")],
   PyVal.dict
     [("title", PyVal.str "T2"), ("content", PyVal.str "A2"), ("type", PyVal.str "mistake")],
   PyVal.dict
     [("title", PyVal.str "T3"), ("content", PyVal.str "A3"), ("type", PyVal.str "tip")],
   PyVal.dict
     [("title", PyVal.str "T4"), ("content", PyVal.str "A4"), ("type", PyVal.str "practice")]]

/-- A sample environment whose insights model replies with `reply4`. -/
def ocGoodInsights : Oracles where
  solverReply := Except.ok "4"
  formatterReply := Except.ok "## 4"
  profileFile := FileOutcome.notFound
  insightsReply := Except.ok reply4

/-- A non-empty profile whose relevant fields are all absent (so every
lookup falls back to its default): well-typed for the insights stage. -/
def profileWellTyped : PyVal := PyVal.dict [("hobby", PyVal.str "chess")]

/-- A non-empty profile carrying a non-dict under `basic_info`: `.get` on it
raises `AttributeError` during profile-field extraction. -/
def profileIllTyped : PyVal := PyVal.dict [("basic_info", PyVal.int 1)]

/-- Does a parsed object carry exactly the insight keys (title, content,
type)? -/
def hasInsightKeys : PyVal → Bool
  | PyVal.dict kvs =>
      let ks := kvs.map Prod.fst
      decide ("title" ∈ ks) && decide ("content" ∈ ks) && decide ("type" ∈ ks) &&
        decide (ks.length = 3)
  | _ => false

/-!## Helper lemmas (shared) -/

/-- When the profile is truthy and survives extraction and prompt building,
`_generate_insights` issues one insights request and returns the parsed
reply or the default set. -/
theorem generate_insights_core (oc : Oracles) (problem_text : Option String)
    (solution : String) (profile : PyVal)
    (h1 : pyTruthy profile = true)
    (h2 : insightsReady problem_text solution profile = true) :
    ∃ prompt,
      _generate_insights oc problem_text solution profile =
        (Except.ok (insightsFromReply oc.insightsReply),
         [AgentCall.insightsCall INSIGHTS_SYSTEM_PROMPT prompt]) := by
  unfold insightsReady at h2
  cases hx : get_relevant_profile_data profile with
  | error e => rw [hx] at h2; cases h2
  | ok rp =>
    rw [hx] at h2
    cases hp : buildInsightsPrompt problem_text solution rp with
    | error e => simp [hp, exceptOk] at h2
    | ok prompt =>
      refine ⟨prompt, ?_⟩
      unfold _generate_insights
      rw [h1]
      simp only [Bool.true_eq_false, if_false, hx, hp, insightsFromReply]
      cases hr : oc.insightsReply with
      | error e => simp
      | ok reply =>
        cases hj : jsonLoads (stripFences reply) with
        | error e => simp [hj]
        | ok v => simp [hj]


/-- The insights stage records either no call or exactly one insights
request. -/
theorem generate_insights_trace (oc : Oracles) (problem_text : Option String)
    (solution : String) (profile : PyVal) :
    (_generate_insights oc problem_text solution profile).2 = [] ∨
    ∃ prompt, (_generate_insights oc problem_text solution profile).2 =
      [AgentCall.insightsCall INSIGHTS_SYSTEM_PROMPT prompt] := by
  unfold _generate_insights
  cases h : pyTruthy profile with
  | false => simp
  | true =>
    simp only [Bool.true_eq_false, if_false]
    cases hx : get_relevant_profile_data profile with
    | error e => simp [hx]
    | ok rp =>
      cases hp : buildInsightsPrompt problem_text solution rp with
      | error e => simp [hx, hp]
      | ok prompt =>
        cases hr : oc.insightsReply with
        | error e => simp [hx, hp, hr]
        | ok reply =>
          cases hj : jsonLoads (stripFences reply) with
          | error e => simp [hx, hp, hr, hj]
          | ok v => simp [hx, hp, hr, hj]

/-- A truthy profile that yields a successful insights result must have
issued exactly one insights request. -/
theorem generate_insights_call_of_ok (oc : Oracles) (problem_text : Option String)
    (solution : String) (profile : PyVal) (insights : PyVal) (insTrace : List AgentCall)
    (htr : pyTruthy profile = true)
    (h : _generate_insights oc problem_text solution profile =
           (Except.ok insights, insTrace)) :
    ∃ prompt, insTrace = [AgentCall.insightsCall INSIGHTS_SYSTEM_PROMPT prompt] := by
  unfold _generate_insights at h
  rw [htr] at h
  simp only [Bool.true_eq_false, if_false] at h
  cases hx : get_relevant_profile_data profile with
  | error e => simp only [hx] at h; simp at h
  | ok rp =>
    simp only [hx] at h
    cases hp : buildInsightsPrompt problem_text solution rp with
    | error e => simp only [hp] at h; simp at h
    | ok prompt =>
      simp only [hp] at h
      refine ⟨prompt, ?_⟩
      cases hr : oc.insightsReply with
      | error e => simp only [hr] at h; simp at h; exact h.2.symm
      | ok reply =>
        simp only [hr] at h
        cases hj : jsonLoads (stripFences reply) with
        | error e => simp only [hj] at h; simp at h; exact h.2.symm
        | ok v => simp only [hj] at h; simp at h; exact h.2.symm

/-- Shape of a successful `solve_problem` run: every stage succeeded, the
result envelope has the three keys, and the trace lists the actions in
pipeline order. -/
theorem solve_problem_ok_shape (oc : Oracles) (problem_text image_base64 : Option String)
    (res : PyVal) (trace : List AgentCall)
    (h : solve_problem oc problem_text image_base64 = (Except.ok res, trace)) :
    ∃ raw fmt profile insights insTrace,
      oc.solverReply = Except.ok raw ∧
      oc.formatterReply = Except.ok fmt ∧
      load_student_profile oc.profileFile = Except.ok profile ∧
      _generate_insights oc problem_text raw profile = (Except.ok insights, insTrace) ∧
      res = PyVal.dict
        [("raw_solution", PyVal.str raw), ("formatted_solution", PyVal.str fmt),
         ("insights", insights)] ∧
      trace = AgentCall.solverCall SOLVER_SYSTEM_PROMPT
                (solverUserContent problem_text image_base64) ::
              AgentCall.formatterCall FORMATTER_SYSTEM_PROMPT (formatterUserMessage raw) ::
              AgentCall.profileLoad :: insTrace := by
  unfold solve_problem _solve_with_agent _format_solution at h
  cases hs : oc.solverReply with
  | error e => rw [hs] at h; simp at h
  | ok raw =>
    rw [hs] at h
    simp only at h
    cases hf : oc.formatterReply with
    | error e => rw [hf] at h; simp at h
    | ok fmt =>
      rw [hf] at h
      simp only at h
      cases hl : load_student_profile oc.profileFile with
      | error e => rw [hl] at h; simp at h
      | ok profile =>
        rw [hl] at h
        simp only at h
        cases hg : _generate_insights oc problem_text raw profile with
        | mk gE gT =>
          rw [hg] at h
          cases gE with
          | error e => simp at h
          | ok insights =>
            simp only [Prod.mk.injEq, Except.ok.injEq] at h
            obtain ⟨h1, h2⟩ := h
            refine ⟨raw, fmt, profile, insights, gT, rfl, rfl, rfl, hg, h1.symm, ?_⟩
            rw [← h2]
            simp

/-- A successfully built response model carries exactly the two declared
fields. -/
theorem mkSolutionResponse_shape (result body : PyVal)
    (h : mkSolutionResponse result = Except.ok body) :
    pyKeys body = Option.some ["raw_solution", "formatted_solution"] := by
  cases result with
  | dict kvs =>
    unfold mkSolutionResponse at h
    cases h1 : requireStrField kvs "raw_solution" with
    | error e => simp only [h1] at h; simp at h
    | ok raw =>
      cases h2 : requireStrField kvs "formatted_solution" with
      | error e => simp only [h1, h2] at h; simp at h
      | ok fmt =>
        simp only [h1, h2, Except.ok.injEq] at h
        rw [← h]
        rfl
  | none => simp [mkSolutionResponse] at h
  | bool b => simp [mkSolutionResponse] at h
  | int n => simp [mkSolutionResponse] at h
  | pyfloat lex => simp [mkSolutionResponse] at h
  | str s => simp [mkSolutionResponse] at h
  | list xs => simp [mkSolutionResponse] at h

/-!## Claim theorems -/

/-- Claim C2: for every call of `_generate_insights` whose profile argument
is the empty mapping, the function returns the fixed four-item default
insight list immediately and records no insights-model request (no network
call is made). -/
theorem insights_default_on_empty_profile :
    (∀ oc problem_text solution,
       _generate_insights oc problem_text solution (PyVal.dict []) =
         (Except.ok defaultInsights, [])) ∧
    ∃ xs, defaultInsights = PyVal.list xs ∧ xs.length = 4 :=
  ⟨fun _ _ _ => rfl, _, rfl, rfl⟩

/-- Claim C8 counterexample: when `_solve_with_agent` receives neither
problem text nor an image, the user turn is the text-prompt with the
interpolation of Python `None`, not the generic "solve what's shown"
caption. -/
theorem solver_caption_counterexample :
    solverUserContent Option.none Option.none =
      [ContentPart.text ("Solve this JEE problem:\n\n" ++ "None")] ∧
    solverUserContent Option.none Option.none ≠
      [ContentPart.text imageDefaultCaption] := by
  exact ⟨rfl, by decide⟩

/-- Claim C8 amended: the generic "solve what's shown" caption is used
exactly when an image is supplied (truthy) and the problem text is absent
or empty; without an image the user turn is the text prompt with the
problem text (or `None`) interpolated. -/
theorem solver_caption_default_with_image (problem_text image_base64 : Option String)
    (himg : optTruthy image_base64 = true) (htxt : optTruthy problem_text = false) :
    solverUserContent problem_text image_base64 =
      [ContentPart.imageUrl ("data:image/jpeg;base64," ++ image_base64.getD ""),
       ContentPart.text imageDefaultCaption] := by
  unfold solverUserContent
  rw [himg, htxt]
  simp

/-- Claim C8 amended, instantiated: an image with no caption text gets the
generic caption. -/
theorem solver_caption_default_with_image_witness :
    solverUserContent Option.none (Option.some "QUJD") =
      [ContentPart.imageUrl ("data:image/jpeg;base64," ++ "QUJD"),
       ContentPart.text imageDefaultCaption] :=
  solver_caption_default_with_image Option.none (Option.some "QUJD") rfl rfl

/-- Claim C9: `load_student_profile` takes no input beyond the state of the
profile file; it returns the parsed mapping when the file parses, the empty
mapping when the file is absent, and propagates every other failure (JSON
parse errors and other read errors) uncaught. -/
theorem load_student_profile_contract :
    (∀ contents v, jsonLoads contents = Except.ok v →
       load_student_profile (FileOutcome.found contents) = Except.ok v) ∧
    load_student_profile FileOutcome.notFound = Except.ok (PyVal.dict []) ∧
    (∀ contents e, jsonLoads contents = Except.error e →
       load_student_profile (FileOutcome.found contents) = Except.error e) ∧
    (∀ e, load_student_profile (FileOutcome.readError e) = Except.error e) :=
  ⟨fun _ _ h => h, rfl, fun _ _ h => h, fun _ => rfl⟩

/-- Claim C9 witness: concrete instances of the three file outcomes. -/
theorem load_student_profile_contract_witness :
    load_student_profile (FileOutcome.found "[1, 2]") =
      Except.ok (PyVal.list [PyVal.int 1, PyVal.int 2]) ∧
    load_student_profile (FileOutcome.found "nope") =
      Except.error (PyErr.jsonDecodeError "Expecting value") ∧
    load_student_profile (FileOutcome.readError (PyErr.oserror "disk")) =
      Except.error (PyErr.oserror "disk") :=
  ⟨load_student_profile_contract.1 "[1, 2]" _ rfl,
   load_student_profile_contract.2.2.1 "nope" _ rfl,
   load_student_profile_contract.2.2.2 (PyErr.oserror "disk")⟩

/-- Claim C10: the formatter request embeds the raw solution string verbatim
after the fixed instruction prefix and the stage returns the model reply
verbatim; in particular, solving "Find 2+2" with a solver that replies "4"
sends the formatter exactly the string "4" embedded in the instruction
prompt. -/
theorem formatter_prompt_verbatim :
    (∀ oc raw_solution,
       _format_solution oc raw_solution =
         (oc.formatterReply,
          [AgentCall.formatterCall FORMATTER_SYSTEM_PROMPT
             ("Format this solution into proper Markdown with MathJax:\n\n" ++
                raw_solution)])) ∧
    (∀ oc, oc.solverReply = Except.ok "4" →
       (solve_problem oc (Option.some "Find 2+2") Option.none).2.take 2 =
         [AgentCall.solverCall SOLVER_SYSTEM_PROMPT
            (solverUserContent (Option.some "Find 2+2") Option.none),
          AgentCall.formatterCall FORMATTER_SYSTEM_PROMPT
            ("Format this solution into proper Markdown with MathJax:\n\n" ++ "4")]) := by
  constructor
  · intro oc raw_solution
    rfl
  · intro oc h
    unfold solve_problem _solve_with_agent _format_solution
    rw [h]
    simp only
    cases hf : oc.formatterReply with
    | error e => simp [formatterUserMessage]
    | ok fmt =>
      simp only
      cases hl : load_student_profile oc.profileFile with
      | error e => simp [formatterUserMessage]
      | ok profile =>
        simp only
        cases hg : _generate_insights oc (Option.some "Find 2+2") "4" profile with
        | mk gE gT =>
          cases gE with
          | error e => simp [formatterUserMessage]
          | ok insights => simp [formatterUserMessage]

/-- Claim C10 witness: the pipeline run on "Find 2+2" in the sample
environment, whose solver replies "4". -/
theorem formatter_prompt_verbatim_witness :
    (solve_problem ocSample (Option.some "Find 2+2") Option.none).2.take 2 =
      [AgentCall.solverCall SOLVER_SYSTEM_PROMPT
         (solverUserContent (Option.some "Find 2+2") Option.none),
       AgentCall.formatterCall FORMATTER_SYSTEM_PROMPT
         ("Format this solution into proper Markdown with MathJax:\n\n" ++ "4")] :=
  formatter_prompt_verbatim.2 ocSample rfl

/-- Claim C1 counterexample: on a non-empty profile whose `basic_info` field
is not a mapping, `_generate_insights` raises `AttributeError` out of
profile-field extraction (which runs outside the try block) instead of
returning a four-item sequence. -/
theorem insights_stage_totality_counterexample :
    (_generate_insights ocSample (Option.some "p") "s" profileIllTyped).1 =
      Except.error (PyErr.attributeError "get") := rfl

/-- Claim C1 amended: for every problem text and solution text, and every
profile that is falsy or whose fields survive profile-field extraction and
prompt building, `_generate_insights` returns normally; its value is either
the JSON value parsed from the model reply (whatever its shape) or the fixed
default set, and the default set has exactly four items. -/
theorem insights_stage_totality :
    (∀ oc problem_text solution profile,
       pyTruthy profile = true →
       insightsReady problem_text solution profile = true →
       (_generate_insights oc problem_text solution profile).1 =
         Except.ok (insightsFromReply oc.insightsReply)) ∧
    (∀ oc problem_text solution profile,
       pyTruthy profile = false →
       (_generate_insights oc problem_text solution profile).1 =
         Except.ok defaultInsights) ∧
    ∃ xs, defaultInsights = PyVal.list xs ∧ xs.length = 4 := by
  refine ⟨?_, ?_, _, rfl, rfl⟩
  · intro oc pt sol profile h1 h2
    obtain ⟨prompt, h⟩ := generate_insights_core oc pt sol profile h1 h2
    rw [h]
  · intro oc pt sol profile h
    unfold _generate_insights
    rw [h]
    rfl

/-- Claim C1 amended, instantiated at a well-typed profile in the sample
environment. -/
theorem insights_stage_totality_witness :
    (_generate_insights ocSample (Option.some "p") "s" profileWellTyped).1 =
      Except.ok (insightsFromReply ocSample.insightsReply) :=
  insights_stage_totality.1 ocSample (Option.some "p") "s" profileWellTyped rfl rfl

/-- Claim C3: for every call with a truthy profile that reaches the model
invocation, a reply that is not valid JSON after fence-stripping makes the
stage return the fixed four-item default set without raising. -/
theorem insights_default_on_invalid_json (oc : Oracles) (problem_text : Option String)
    (solution : String) (profile : PyVal) (reply : String) (e : PyErr)
    (h1 : pyTruthy profile = true)
    (h2 : insightsReady problem_text solution profile = true)
    (h3 : oc.insightsReply = Except.ok reply)
    (h4 : jsonLoads (stripFences reply) = Except.error e) :
    (_generate_insights oc problem_text solution profile).1 =
      Except.ok defaultInsights := by
  obtain ⟨prompt, h⟩ := generate_insights_core oc problem_text solution profile h1 h2
  rw [h]
  simp [insightsFromReply, h3, h4]

/-- Claim C3, instantiated: a prose reply falls back to the default set. -/
theorem insights_default_on_invalid_json_witness :
    (_generate_insights ocBadJson (Option.some "p") "s" profileWellTyped).1 =
      Except.ok defaultInsights :=
  insights_default_on_invalid_json ocBadJson (Option.some "p") "s" profileWellTyped
    "Here are your insights!" (PyErr.jsonDecodeError "Expecting value") rfl rfl rfl rfl

/-- Claim C4: for every call with a truthy profile that reaches the model
invocation, a reply that parses to a JSON array of exactly four objects each
carrying the keys title, content and type is returned unmodified, in order,
with no additions, deletions or edits. -/
theorem insights_passthrough_valid_array (oc : Oracles) (problem_text : Option String)
    (solution : String) (profile : PyVal) (reply : String) (objs : List PyVal)
    (h1 : pyTruthy profile = true)
    (h2 : insightsReady problem_text solution profile = true)
    (h3 : oc.insightsReply = Except.ok reply)
    (h4 : jsonLoads (stripFences reply) = Except.ok (PyVal.list objs))
    (h5 : objs.length = 4)
    (h6 : ∀ o ∈ objs, hasInsightKeys o = true) :
    (_generate_insights oc problem_text solution profile).1 =
      Except.ok (PyVal.list objs) := by
  obtain ⟨prompt, h⟩ := generate_insights_core oc problem_text solution profile h1 h2
  rw [h]
  simp [insightsFromReply, h3, h4]

set_option maxRecDepth 8192 in
/-- Claim C4, instantiated: the four-object reply `reply4` is passed through
unchanged. -/
theorem insights_passthrough_valid_array_witness :
    (_generate_insights ocGoodInsights (Option.some "p") "s" profileWellTyped).1 =
      Except.ok (PyVal.list objs4) :=
  insights_passthrough_valid_array ocGoodInsights (Option.some "p") "s"
    profileWellTyped reply4 objs4 rfl rfl rfl rfl rfl (by decide)

/-- Claim C7: `solve_problem` performs its actions in the strict order
solver, formatter, profile load, insights (every trace is a prefix of that
order), and when the solver stage fails the whole call fails with that
error, no other stage having run. -/
theorem pipeline_order_and_solver_failure :
    (∀ oc problem_text image_base64,
       ((solve_problem oc problem_text image_base64).2.map stageOf) ∈
         [[AgentStage.solver],
          [AgentStage.solver, AgentStage.formatter],
          [AgentStage.solver, AgentStage.formatter, AgentStage.profileRead],
          [AgentStage.solver, AgentStage.formatter, AgentStage.profileRead,
           AgentStage.insights]]) ∧
    (∀ oc problem_text image_base64 e,
       oc.solverReply = Except.error e →
       (solve_problem oc problem_text image_base64).1 = Except.error e ∧
       (solve_problem oc problem_text image_base64).2.map stageOf =
         [AgentStage.solver]) := by
  constructor
  · intro oc pt ib
    unfold solve_problem _solve_with_agent _format_solution
    cases hs : oc.solverReply with
    | error e => simp [stageOf]
    | ok raw =>
      simp only
      cases hf : oc.formatterReply with
      | error e => simp [stageOf]
      | ok fmt =>
        simp only
        cases hl : load_student_profile oc.profileFile with
        | error e => simp [stageOf]
        | ok profile =>
          simp only
          cases hg : _generate_insights oc pt raw profile with
          | mk gE gT =>
            have ht := generate_insights_trace oc pt raw profile
            rw [hg] at ht
            simp only at ht
            rcases ht with ht | ⟨prompt, ht⟩ <;>
              cases gE with
              | error e => simp [stageOf, ht]
              | ok insights => simp [stageOf, ht]
  · intro oc pt ib e h
    unfold solve_problem _solve_with_agent _format_solution
    rw [h]
    exact ⟨rfl, rfl⟩

/-- Claim C7, instantiated: the environment whose solver raises performs the
solver call only and propagates the error. -/
theorem pipeline_order_and_solver_failure_witness :
    (solve_problem ocSolverDown (Option.some "Q") Option.none).1 =
      Except.error (PyErr.modelError "quota") ∧
    (solve_problem ocSolverDown (Option.some "Q") Option.none).2.map stageOf =
      [AgentStage.solver] :=
  pipeline_order_and_solver_failure.2 ocSolverDown (Option.some "Q") Option.none
    (PyErr.modelError "quota") rfl

/-- Common part of the two endpoints: a successful HTTP response has exactly
the two declared keys while the computed envelope had three, the profile was
read, and a truthy profile entailed an insights-model call. -/
theorem endpoint_envelope_aux (oc : Oracles) (pt ib : Option String)
    (body : PyVal) (trace : List AgentCall)
    (h1 : (match (solve_problem oc pt ib).1 with
           | Except.ok result => mkSolutionResponse result
           | Except.error e => (Except.error e : Except PyErr PyVal)) = Except.ok body)
    (h2 : (solve_problem oc pt ib).2 = trace) :
    pyKeys body = Option.some ["raw_solution", "formatted_solution"] ∧
    (∃ env, (solve_problem oc pt ib).1 = Except.ok env ∧
       pyKeys env = Option.some ["raw_solution", "formatted_solution", "insights"]) ∧
    AgentCall.profileLoad ∈ trace ∧
    (∀ profile, load_student_profile oc.profileFile = Except.ok profile →
       pyTruthy profile = true →
       ∃ prompt, AgentCall.insightsCall INSIGHTS_SYSTEM_PROMPT prompt ∈ trace) := by
  cases hr : (solve_problem oc pt ib).1 with
  | error e => rw [hr] at h1; simp at h1
  | ok res =>
    rw [hr] at h1
    simp only at h1
    have hpair : solve_problem oc pt ib = (Except.ok res, trace) := by
      rw [← hr, ← h2]
    obtain ⟨raw, fmt, profile, insights, insT, hs, hf, hl, hg, hres, htrace⟩ :=
      solve_problem_ok_shape oc pt ib res trace hpair
    refine ⟨mkSolutionResponse_shape res body h1, ⟨res, rfl, ?_⟩, ?_, ?_⟩
    · rw [hres]; rfl
    · rw [htrace]; simp
    · intro profile2 hl2 htr2
      rw [hl] at hl2
      injection hl2 with hpp
      obtain ⟨prompt, hins⟩ :=
        generate_insights_call_of_ok oc pt raw profile insights insT
          (by rw [hpp]; exact htr2) hg
      refine ⟨prompt, ?_⟩
      rw [htrace, hins]
      simp

/-- Claim C6: every successful response of POST /solve/text and POST
/solve/image carries exactly the keys raw_solution and formatted_solution
and never an insights key, even though `solve_problem` computed the full
envelope with its insights value (reading the profile, and invoking the
insights model whenever the loaded profile is truthy) before the HTTP layer
discarded it. -/
theorem http_response_envelope :
    (∀ oc problem_text body trace,
       solve_text_problem oc problem_text = (Except.ok body, trace) →
       pyKeys body = Option.some ["raw_solution", "formatted_solution"] ∧
       (∃ env, (solve_problem oc (Option.some problem_text) Option.none).1 =
            Except.ok env ∧
          pyKeys env = Option.some ["raw_solution", "formatted_solution", "insights"]) ∧
       AgentCall.profileLoad ∈ trace ∧
       (∀ profile, load_student_profile oc.profileFile = Except.ok profile →
          pyTruthy profile = true →
          ∃ prompt, AgentCall.insightsCall INSIGHTS_SYSTEM_PROMPT prompt ∈ trace)) ∧
    (∀ oc imageBytes additional_text body trace,
       solve_image_problem oc imageBytes additional_text = (Except.ok body, trace) →
       pyKeys body = Option.some ["raw_solution", "formatted_solution"] ∧
       (∃ env, (solve_problem oc additional_text
            (Option.some (b64encode imageBytes))).1 = Except.ok env ∧
          pyKeys env = Option.some ["raw_solution", "formatted_solution", "insights"]) ∧
       AgentCall.profileLoad ∈ trace ∧
       (∀ profile, load_student_profile oc.profileFile = Except.ok profile →
          pyTruthy profile = true →
          ∃ prompt, AgentCall.insightsCall INSIGHTS_SYSTEM_PROMPT prompt ∈ trace)) := by
  constructor
  · intro oc problem_text body trace h
    exact endpoint_envelope_aux oc (Option.some problem_text) Option.none body trace
      (congrArg Prod.fst h) (congrArg Prod.snd h)
  · intro oc imageBytes additional_text body trace h
    exact endpoint_envelope_aux oc additional_text
      (Option.some (b64encode imageBytes)) body trace
      (congrArg Prod.fst h) (congrArg Prod.snd h)

/-- Claim C6, instantiated: a text request in the sample environment. -/
theorem http_response_envelope_witness :
    pyKeys (PyVal.dict
        [("raw_solution", PyVal.str "4"), ("formatted_solution", PyVal.str "## 4")]) =
      Option.some ["raw_solution", "formatted_solution"] ∧
    AgentCall.profileLoad ∈ (solve_text_problem ocSample "Q").2 :=
  ⟨(http_response_envelope.1 ocSample "Q"
      (PyVal.dict
        [("raw_solution", PyVal.str "4"), ("formatted_solution", PyVal.str "## 4")])
      (solve_text_problem ocSample "Q").2 rfl).1,
   (http_response_envelope.1 ocSample "Q"
      (PyVal.dict
        [("raw_solution", PyVal.str "4"), ("formatted_solution", PyVal.str "## 4")])
      (solve_text_problem ocSample "Q").2 rfl).2.2.1⟩

/-- Splitting a text that starts with a fence removes the fence and opens
with an empty part. -/
theorem splitFence_bbb (rest : List Char) :
    splitFence (btick :: btick :: btick :: rest) = [] :: splitFence rest := by
  simp [splitFence]

/-- Fence-freedom is preserved by dropping the head character. -/
theorem containsFence_cons (c : Char) (cs : List Char)
    (h : containsFence (c :: cs) = false) : containsFence cs = false := by
  cases cs with
  | nil => rfl
  | cons c2 rest =>
    cases rest with
    | nil => rfl
    | cons c3 rest2 =>
      rw [containsFence] at h
      exact (Bool.or_eq_false_iff.mp h).2

/-- Splitting `a ++ fence ++ ds` where no fence can occur inside `a` (nor
straddling into the fence) cuts exactly at the fence. -/
theorem splitFence_mid (a ds : List Char)
    (h : containsFence (a ++ [btick, btick]) = false) :
    splitFence (a ++ btick :: btick :: btick :: ds) = a :: splitFence ds := by
  induction a with
  | nil => simpa using splitFence_bbb ds
  | cons c a ih =>
    have h2 : containsFence (a ++ [btick, btick]) = false :=
      containsFence_cons c _ (by simpa using h)
    have hrec := ih h2
    rcases a with _ | ⟨c2, a2⟩
    · simp only [List.nil_append, List.cons_append] at hrec ⊢
      have hc : (c = btick) = False := by
        simp only [List.cons_append, List.nil_append, containsFence, containsFence,
          Bool.or_eq_false_iff] at h
        simp only [eq_iff_iff, iff_false]
        intro hcc
        rcases h with ⟨h1, _⟩
        simp [hcc] at h1
      rw [splitFence]
      simp only [hc, decide_False, Bool.false_and, Bool.if_false_left,
        Bool.and_eq_true, decide_eq_true_eq]
      rw [splitFence_bbb]
      simp
    · rcases a2 with _ | ⟨c3, a3⟩
      · simp only [List.cons_append, List.nil_append] at hrec ⊢
        have hc : ¬(c = btick ∧ c2 = btick) := by
          intro ⟨hx, hy⟩
          simp [containsFence, hx, hy] at h
        rw [splitFence]
        have hcond : (decide (c = btick) && decide (c2 = btick) && decide (btick = btick)) = false := by
          rcases Decidable.em (c = btick) with hx | hx
          · rcases Decidable.em (c2 = btick) with hy | hy
            · exact absurd ⟨hx, hy⟩ hc
            · simp [hx, hy]
          · simp [hx]
        rw [hcond]
        simp only [Bool.false_eq_true, if_false]
        rw [hrec]
      · simp only [List.cons_append] at hrec ⊢
        have hc : ¬(c = btick ∧ c2 = btick ∧ c3 = btick) := by
          intro ⟨hx, hy, hz⟩
          simp [containsFence, hx, hy, hz] at h
        rw [splitFence]
        have hcond : (decide (c = btick) && decide (c2 = btick) && decide (c3 = btick)) = false := by
          rcases Decidable.em (c = btick) with hx | hx
          · rcases Decidable.em (c2 = btick) with hy | hy
            · rcases Decidable.em (c3 = btick) with hz | hz
              · exact absurd ⟨hx, hy, hz⟩ hc
              · simp [hx, hy, hz]
            · simp [hx, hy]
          · simp [hx]
        rw [hcond]
        simp only [Bool.false_eq_true, if_false]
        rw [hrec]

/-- Claim C5: the text `_generate_insights` submits to the JSON parser is,
for a reply whose whitespace-trimmed form begins with a triple-backtick
fence, exactly the segment between the first and the second fence with a
leading `json` label token removed when present; a reply not beginning with
a fence is submitted whole (after trimming). -/
theorem insights_fence_extraction :
    (∀ s, isFenceStart (pyStrip s).data = false → stripFences s = pyStrip s) ∧
    (∀ s a b,
       (pyStrip s).data = btick :: btick :: btick :: (a ++ btick :: btick :: btick :: b) →
       containsFence (a ++ [btick, btick]) = false →
       stripFences s = String.mk (if startsWithJson a then a.drop 4 else a)) := by
  constructor
  · intro s h
    unfold stripFences stripFencesL
    rw [h]
    simp
  · intro s a b hsplit hfree
    unfold stripFences stripFencesL
    rw [hsplit]
    have hstart :
        isFenceStart (btick :: btick :: btick :: (a ++ btick :: btick :: btick :: b)) =
          true := by
      simp [isFenceStart]
    rw [hstart]
    have hsf :
        splitFence (btick :: btick :: btick :: (a ++ btick :: btick :: btick :: b)) =
          [] :: a :: splitFence b := by
      rw [splitFence_bbb, splitFence_mid a b hfree]
    simp [hsf]

/-- Claim C5, instantiated: a fenced reply with a `json` label yields the
between-fence segment without the label; an unfenced reply is submitted
whole after trimming. -/
theorem insights_fence_extraction_witness :
    stripFences "```json[1]```" = "[1]" ∧
    stripFences " [1, 2] " = "[1, 2]" :=
  ⟨insights_fence_extraction.2 "```json[1]```" "json[1]".data [] (by decide) (by decide),
   insights_fence_extraction.1 " [1, 2] " (by decide)⟩
